import Mathlib

/-!
Verification of the automated model-health monitoring and retraining
subsystem of the BCBSLevy repository, as a shallow embedding in Lean 4.

Embedded modules:
* `ml/hooks/drift_detector.py`  — class `DriftDetector`, `trigger_retraining`
* `ml/training/retrain_pipeline.py` — class `RetrainPipeline`
* `ml/auto_retraining_scheduler.py` — `make_json_serializable`,
  class `RetrainingScheduler`

Pure numerical code is embedded over `ℚ`; filesystem and process effects
are embedded as explicit environments recording which operation succeeds,
with exception propagation modelled by `Except`.
-/

namespace BCBSLevy

/-- Configured file paths of the subsystem (constructor defaults of
`DriftDetector`, `RetrainPipeline` and `RetrainingScheduler`). -/
structure Paths where
  data_path : String
  model_path : String
  metrics_path : String
deriving DecidableEq, Repr

/-- The constructor defaults shared by all three classes. -/
def defaultPaths : Paths :=
  { data_path := "data/levy_training_data.csv"
    model_path := "ml/models/levy_impact_model.pkl"
    metrics_path := "ml/models/model_metrics.json" }

/-- Arithmetic mean, as computed by `np.mean` (sum divided by length;
the embedding gives `0` for the empty list, where NumPy gives NaN, so
theorems about means carry a nonemptiness hypothesis). -/
def listMean (xs : List ℚ) : ℚ := xs.sum / xs.length

namespace DriftDetector

/-- `DriftDetector.check_value_drift` (drift_detector.py lines 71-92).
`baseline_mean` is `self.baseline_mean` (possibly `None`), `threshold`
is `self.threshold`.  Returns `(drift_detected, drift_magnitude)`.
With no baseline the source logs a warning and returns `(False, 0.0)`;
otherwise `drift = abs(new_value - baseline_mean)` and
`drift_detected = drift > threshold`. -/
def check_value_drift (baseline_mean : Option ℚ) (threshold : ℚ)
    (new_value : ℚ) : Bool × ℚ :=
  match baseline_mean with
  | none => (false, 0)
  | some b =>
      let drift := |new_value - b|
      (decide (drift > threshold), drift)

/-- Result dictionary of `check_prediction_drift` (the keys used by its
callers and the spec: the drift flag, current MSE/MAE and, when
reference metrics exist, the relative changes). -/
structure PredDriftResult where
  drift_detected : Bool
  current_mse : ℚ
  current_mae : ℚ
  mse_change : Option ℚ
  mae_change : Option ℚ
deriving DecidableEq, Repr

/-- `DriftDetector.check_prediction_drift` (drift_detector.py lines
168-250), for data that does contain the target column.  A data row is
`(features, target)`; the model is a prediction function on the feature
part.  `refMetrics` is `some (ref_mse, ref_mae)` when the metrics file
exists and parses (the source falls back `ref_mae := ref_mse` when only
`mse` is present; the pair already reflects that).  Residuals are
`y_true - y_pred`, `mse`/`mae` their mean square / mean absolute value;
with reference metrics the relative changes `(new - ref)/ref` are
compared strictly against the 0.2 threshold, drift iff either exceeds
it.  (The source would raise `ZeroDivisionError` on a zero reference
metric; theorems therefore assume nonzero references.) -/
def check_prediction_drift (model : ℚ → ℚ) (rows : List (ℚ × ℚ))
    (refMetrics : Option (ℚ × ℚ)) : PredDriftResult :=
  let residuals := rows.map (fun r => r.2 - model r.1)
  let mse := listMean (residuals.map (fun x => x * x))
  let mae := listMean (residuals.map (fun x => |x|))
  match refMetrics with
  | none =>
      { drift_detected := false, current_mse := mse, current_mae := mae
        mse_change := none, mae_change := none }
  | some (ref_mse, ref_mae) =>
      let mse_change := (mse - ref_mse) / ref_mse
      let mae_change := (mae - ref_mae) / ref_mae
      { drift_detected := decide (mse_change > 1/5) || decide (mae_change > 1/5)
        current_mse := mse, current_mae := mae
        mse_change := some mse_change, mae_change := some mae_change }

end DriftDetector

/-- Fixture: ten rows whose residuals under the zero model give
MSE = 13/10 and MAE = 1/2 (the spec scenario with new MSE 1.3). -/
def predDriftRowsFlagged : List (ℚ × ℚ) :=
  [(0, 3), (0, 2), (0, 0), (0, 0), (0, 0), (0, 0), (0, 0), (0, 0), (0, 0), (0, 0)]

/-- Fixture: ten rows whose residuals under the zero model give
MSE = 11/10 and MAE = 1/2 (the spec scenario with new MSE 1.1). -/
def predDriftRowsUnflagged : List (ℚ × ℚ) :=
  [(0, 3), (0, 1), (0, 1), (0, 0), (0, 0), (0, 0), (0, 0), (0, 0), (0, 0), (0, 0)]

/-- Fixture: ten rows whose residuals under the zero model give
MSE = 1 and MAE = 2/5 exactly (for the equal-metrics scenario). -/
def predDriftRowsEqual : List (ℚ × ℚ) :=
  [(0, 3), (0, 1), (0, 0), (0, 0), (0, 0), (0, 0), (0, 0), (0, 0), (0, 0), (0, 0)]

/-- Python slice `rows[: -k]` (`df.iloc[:-test_size]`) for `k ≥ 0`:
the stop index is `-k`, so `k = 0` means stop `0` and the slice is
empty; otherwise the slice keeps the rows before position `n - k`
(clamped at zero, as Python clamps out-of-range slice bounds). -/
def ilocToNeg (rows : List α) (k : Nat) : List α :=
  rows.take (if k = 0 then 0 else rows.length - k)

/-- Python slice `rows[-k :]` (`df.iloc[-test_size:]`) for `k ≥ 0`:
the start index is `-k`, so `k = 0` means start `0` and the slice is
the whole list; otherwise it keeps the rows from position `n - k` on. -/
def ilocFromNeg (rows : List α) (k : Nat) : List α :=
  rows.drop (if k = 0 then 0 else rows.length - k)

/-- The train/test row split performed by `RetrainPipeline.load_data`
(retrain_pipeline.py lines 75-79):
`test_size = int(len(data) * 0.2)` — for dataset sizes the double
multiplication `n * 0.2` floors to `⌊n / 5⌋` under `int(...)`, embedded
as natural division — then `X_train = X.iloc[:-test_size]`,
`X_test = X.iloc[-test_size:]`, and identically for `y`.  Since the
feature frame and the target series are sliced with the same indices,
the split is embedded once over whole rows. -/
def load_data_split (rows : List α) : List α × List α :=
  let test_size := rows.length / 5
  (ilocToNeg rows test_size, ilocFromNeg rows test_size)

/-- The regression model families imported by retrain_pipeline.py
(lines 18-19): `LinearRegression` and `RandomForestRegressor`. -/
inductive ModelKind where
  | linearRegression
  | randomForest
deriving DecidableEq, Repr

/-- The estimator configuration constructed by `train_model`. -/
structure ModelSpec where
  kind : ModelKind
  n_estimators : Nat
  max_depth : Nat
  random_state : Nat
deriving DecidableEq, Repr

/-- A fitted model: the estimator configuration plus the data it was
fit on. -/
structure Model where
  spec : ModelSpec
  fitX : List (List ℚ)
  fitY : List ℚ
deriving DecidableEq, Repr

/-- The parameter names (beyond `self`) of `RetrainPipeline.train_model`
in the source (retrain_pipeline.py line 89): `X_train` and `y_train`
only. -/
def train_model_param_names : List String := ["X_train", "y_train"]

/-- The parameter names (beyond `self`) of `RetrainPipeline.run` in the
source (retrain_pipeline.py line 208): it takes none. -/
def run_param_names : List String := []

namespace RetrainPipeline

/-- `RetrainPipeline.train_model` (retrain_pipeline.py lines 89-125):
unconditionally constructs
`RandomForestRegressor(n_estimators=100, max_depth=10, random_state=42)`
and fits it on the given data.  There is no model-type dispatch in the
body; the `LinearRegression` import of line 18 is never used. -/
def train_model (X_train : List (List ℚ)) (y_train : List ℚ) : Model :=
  { spec := { kind := ModelKind.randomForest, n_estimators := 100
              max_depth := 10, random_state := 42 }
    fitX := X_train, fitY := y_train }

end RetrainPipeline

/-- A filesystem operation performed (successfully) by `save_model`.
`rename` is in the vocabulary so that the absence of a rename step is a
fact about the function, not about the type. -/
inductive FsOp where
  | write (path : String)
  | createIfMissing (path : String)
  | append (path : String)
  | rename (src dst : String)
deriving DecidableEq, Repr

/-- Whether an operation is a rename. -/
def FsOp.isRename : FsOp → Bool
  | .rename _ _ => true
  | _ => false

/-- `os.path.dirname`: the text before the final slash, empty when the
path contains no slash. -/
def dirname (p : String) : String :=
  String.intercalate "/" ((p.splitOn "/").dropLast)

/-- `os.path.join` for the simple shapes used here. -/
def pathJoin (d f : String) : String :=
  if d = "" then f else d ++ "/" ++ f

/-- The training-history ledger path derived in `save_model`
(retrain_pipeline.py line 191):
`os.path.join(os.path.dirname(model_path), 'training_history.csv')`. -/
def history_path (p : Paths) : String :=
  pathJoin (dirname p.model_path) "training_history.csv"

/-- Which of `save_model`'s filesystem operations succeed; an operation
that is `false` raises when attempted. -/
structure SaveEnv where
  model_write_ok : Bool
  metrics_write_ok : Bool
  history_exists : Bool
  history_create_ok : Bool
  history_append_ok : Bool
deriving DecidableEq, Repr

/-- A `SaveEnv` in which every filesystem operation succeeds. -/
def allOkSave : SaveEnv :=
  { model_write_ok := true, metrics_write_ok := true, history_exists := true
    history_create_ok := true, history_append_ok := true }

/-- Evaluation metrics returned by `evaluate_model` (mse, mae, r2). -/
structure Metrics where
  mse : ℚ
  mae : ℚ
  r2 : ℚ
deriving DecidableEq, Repr

namespace RetrainPipeline

/-- `RetrainPipeline.save_model` (retrain_pipeline.py lines 165-206).
The body is one try/except block performing, in order:
`joblib.dump(model, self.model_path)` — a single direct dump to the
target path, with no temporary file and no rename —, `json.dump` of the
metrics to `metrics_path`, creation of `training_history.csv` when it
does not exist, and the append of one ledger row.  Any exception from
any step is caught, logged, and turned into the return value `False`;
success returns `True`.  The embedding returns that Boolean together
with the trace of filesystem operations that completed before the
failure (if any). -/
def save_model (p : Paths) (env : SaveEnv) : Bool × List FsOp :=
  if env.model_write_ok = false then
    (false, [])
  else if env.metrics_write_ok = false then
    (false, [FsOp.write p.model_path])
  else if env.history_exists = false then
    if env.history_create_ok = false then
      (false, [FsOp.write p.model_path, FsOp.write p.metrics_path])
    else if env.history_append_ok = false then
      (false, [FsOp.write p.model_path, FsOp.write p.metrics_path,
               FsOp.createIfMissing (history_path p)])
    else
      (true, [FsOp.write p.model_path, FsOp.write p.metrics_path,
              FsOp.createIfMissing (history_path p), FsOp.append (history_path p)])
  else if env.history_append_ok = false then
    (false, [FsOp.write p.model_path, FsOp.write p.metrics_path])
  else
    (true, [FsOp.write p.model_path, FsOp.write p.metrics_path,
            FsOp.append (history_path p)])

/-- Which of `run`'s stages succeed, and the metrics `evaluate_model`
produces when it does. -/
structure RunEnv where
  load_ok : Bool
  train_ok : Bool
  eval_ok : Bool
  save_env : SaveEnv
  metrics : Metrics
deriving DecidableEq, Repr

/-- `RetrainPipeline.run` (retrain_pipeline.py lines 208-236):
load → train → evaluate → save.  `load_data`, `train_model` and
`evaluate_model` re-`raise` on failure and `run`'s own except block
re-raises (line 236), embedded as `Except.error`.  `save_model` never
raises; line 228 calls it as a bare statement, so **its Boolean result
is discarded** and `run` returns the metrics even when persistence
failed. -/
def run (p : Paths) (env : RunEnv) : Except String Metrics :=
  if env.load_ok = false then Except.error "Error loading data"
  else if env.train_ok = false then Except.error "Error training model"
  else if env.eval_ok = false then Except.error "Error evaluating model"
  else
    let _save := save_model p env.save_env
    Except.ok env.metrics

end RetrainPipeline

/-- `trigger_retraining` (drift_detector.py lines 307-337).  When the
drift result carries no `drift_detected` flag set, returns the Python
boolean `False`.  Otherwise it runs `RetrainPipeline().run()`: a normal
return yields `True`, and any exception is caught and yields `False`.
Its return type is `bool` — it never returns a string. -/
def trigger_retraining (drift_detected : Bool) (p : Paths)
    (env : RetrainPipeline.RunEnv) : Bool :=
  if drift_detected = false then false
  else
    match RetrainPipeline.run p env with
    | Except.ok _ => true
    | Except.error _ => false

/-- A Python value that is either a `bool` or a `str`, to embed the
scheduler's comparison of `trigger_retraining`'s result against the
string literal `"True"`. -/
inductive PyVal where
  | bool (b : Bool)
  | str (s : String)
deriving DecidableEq, Repr

/-- Python `==` on these values: same-type values compare by value; a
`bool` never equals a `str` (Python cross-type `==` is `False`, so
`True == "True"` evaluates to `False`). -/
def pyEq : PyVal → PyVal → Bool
  | PyVal.bool a, PyVal.bool b => a == b
  | PyVal.str a, PyVal.str b => a == b
  | _, _ => false

/-- The observable outcome of one `check_for_drift` call: the subjects
of the notifications sent, and the `retraining_triggered` /
`retraining_success` fields stored in the result dictionary. -/
structure DriftCheckOutcome where
  notifications : List String
  retraining_triggered : PyVal
  retraining_success : Option PyVal
deriving DecidableEq, Repr

namespace RetrainingScheduler

/-- The drift-handling branch of `RetrainingScheduler.check_for_drift`
(auto_retraining_scheduler.py lines 133-169), given the
`drift_detected` flag of the monitoring result.  On drift it sends the
"Model Drift Detected" notification, calls `trigger_retraining` and
stores its Boolean result, then compares that result against the
*string* `"True"` (line 147: `if retraining_success == "True":`) to
choose between the "Model Retraining Complete" and "Model Retraining
Failed" notifications.  Without drift it sends nothing and records
`retraining_triggered = "False"`. -/
def check_for_drift (drift_detected : Bool) (p : Paths)
    (env : RetrainPipeline.RunEnv) : DriftCheckOutcome :=
  if drift_detected then
    let rs : PyVal := PyVal.bool (trigger_retraining drift_detected p env)
    if pyEq rs (PyVal.str "True") then
      { notifications := ["Model Drift Detected", "Model Retraining Complete"]
        retraining_triggered := PyVal.str "True"
        retraining_success := some rs }
    else
      { notifications := ["Model Drift Detected", "Model Retraining Failed"]
        retraining_triggered := PyVal.str "True"
        retraining_success := some rs }
  else
    { notifications := []
      retraining_triggered := PyVal.str "False"
      retraining_success := none }

end RetrainingScheduler

/-- A `RunEnv` in which every pipeline stage and every filesystem
operation succeeds. -/
def okRunEnv : RetrainPipeline.RunEnv :=
  { load_ok := true, train_ok := true, eval_ok := true
    save_env := allOkSave, metrics := { mse := 1, mae := 1, r2 := 1 } }

/-- A Python object as seen by `make_json_serializable`
(auto_retraining_scheduler.py lines 31-50): dictionaries with string
keys, lists, ints, floats, strings, `None`, booleans, and anything
else (carried as its `str(...)` representation). -/
inductive PyObj where
  | dict (kvs : List (String × PyObj))
  | list (xs : List PyObj)
  | int (n : Int)
  | float (q : ℚ)
  | str (s : String)
  | none
  | bool (b : Bool)
  | other (text : String)

/-- Python `str(...)` of a boolean. -/
def pyStrOfBool (b : Bool) : String :=
  if b then "True" else "False"

/-- The test `isinstance(obj, (int, float, str, type(None)))` on line 45
of auto_retraining_scheduler.py.  In Python, `bool` is a subclass of
`int`, so a boolean passes this test: `isinstance(True, int)` is
`True`. -/
def isIntFloatStrNone : PyObj → Bool
  | PyObj.int _ => true
  | PyObj.float _ => true
  | PyObj.str _ => true
  | PyObj.none => true
  | PyObj.bool _ => true
  | _ => false

/-- Python `str(...)` of the leaf objects that reach the final branches
of `make_json_serializable` (only `other` values actually reach them;
the `bool` case records what `str` would produce there). -/
def pyStrOfLeaf : PyObj → String
  | PyObj.bool b => pyStrOfBool b
  | PyObj.other text => text
  | _ => ""

mutual

/-- `make_json_serializable` (auto_retraining_scheduler.py lines 31-50):
recurses through dicts and lists; then tests
`isinstance(obj, (int, float, str, type(None)))` and returns the object
unchanged when it passes — which a boolean does, since `bool` is a
subclass of `int` — so the later `isinstance(obj, bool)` branch
(line 47, commented "Convert bools to strings") is unreachable and
everything remaining is stringified. -/
def make_json_serializable : PyObj → PyObj
  | PyObj.dict kvs => PyObj.dict (makeJsonSerializablePairs kvs)
  | PyObj.list xs => PyObj.list (makeJsonSerializableList xs)
  | o => if isIntFloatStrNone o then o else PyObj.str (pyStrOfLeaf o)

/-- `make_json_serializable` mapped over the entries of a dict. -/
def makeJsonSerializablePairs : List (String × PyObj) → List (String × PyObj)
  | [] => []
  | (k, v) :: rest => (k, make_json_serializable v) :: makeJsonSerializablePairs rest

/-- `make_json_serializable` mapped over the items of a list. -/
def makeJsonSerializableList : List PyObj → List PyObj
  | [] => []
  | x :: rest => make_json_serializable x :: makeJsonSerializableList rest

end

/-- What happens inside one `monitor_and_alert` call: which files
exist, which loads succeed, what the two sub-checks report, and whether
the user-supplied alert callback raises when invoked. -/
structure MonEnv where
  model_exists : Bool
  data_exists : Bool
  model_load_ok : Bool
  data_load_ok : Bool
  checks_raise : Bool
  dist_drift : Bool
  pred_drift : Bool
  callback_raises : Bool
deriving DecidableEq, Repr

/-- The fields of `monitor_and_alert`'s result dictionary that the spec
and the claims mention. -/
structure MonResult where
  status : String
  message : String
  drift_detected : Option Bool
deriving DecidableEq, Repr

namespace DriftDetector

/-- The body of `DriftDetector.monitor_and_alert` inside its try block
(drift_detector.py lines 268-301).  A missing model or data file is an
early `return` of an error dictionary (lines 270-276), not an
exception; `joblib.load`, `pd.read_csv`, the sub-checks and the alert
callback may raise, embedded as `Except.error`.  The callback is
invoked (line 299) exactly when drift was detected and a callback was
supplied. -/
def monitor_and_alert_body (p : Paths) (env : MonEnv) :
    Except String MonResult :=
  if env.model_exists = false then
    Except.ok { status := "error"
                message := "Model file not found: " ++ p.model_path
                drift_detected := Option.none }
  else if env.data_exists = false then
    Except.ok { status := "error"
                message := "Data file not found: " ++ p.data_path
                drift_detected := Option.none }
  else if env.model_load_ok = false then
    Except.error "failed to load model artifact"
  else if env.data_load_ok = false then
    Except.error "failed to read dataset"
  else if env.checks_raise then
    Except.error "drift check raised"
  else
    let drift := env.dist_drift || env.pred_drift
    if drift && env.callback_raises then
      Except.error "alert callback raised"
    else
      Except.ok { status := if drift then "alert" else "ok"
                  message := ""
                  drift_detected := some drift }

/-- `DriftDetector.monitor_and_alert` (drift_detector.py lines
252-305): the whole body runs under `try`, and the except block
(lines 303-305) converts any exception into
`{'status': 'error', 'message': str(e)}` — so the function always
returns a dictionary and never raises. -/
def monitor_and_alert (p : Paths) (env : MonEnv) : MonResult :=
  match monitor_and_alert_body p env with
  | Except.ok r => r
  | Except.error e =>
      { status := "error", message := e, drift_detected := Option.none }

end DriftDetector

end BCBSLevy

namespace BCBSLevy

open DriftDetector

/-- C8: with a configured baseline and threshold, `check_value_drift`
returns magnitude `|new_value - baseline|` and flags drift exactly when
that magnitude strictly exceeds the threshold (so at exactly the
threshold drift is false); in particular baseline 10, threshold 5,
input 16 yields `(true, 6)`. -/
theorem check_value_drift_spec (b t v : ℚ) :
    ((check_value_drift (some b) t v).1 = true ↔ |v - b| > t) ∧
    (check_value_drift (some b) t v).2 = |v - b| ∧
    (|v - b| = t → (check_value_drift (some b) t v).1 = false) ∧
    check_value_drift (some 10) 5 16 = (true, 6) := by
  refine ⟨by simp [check_value_drift], rfl, ?_, by norm_num [check_value_drift]⟩
  intro h
  simp [check_value_drift, h]

/-- Witness for C8: at baseline 10, threshold 5, input 15 the magnitude
equals the threshold and drift is reported false. -/
theorem check_value_drift_spec_witness :
    (check_value_drift (some 10) 5 15).1 = false :=
  (check_value_drift_spec 10 5 15).2.2.1 (by norm_num)

/-- C9: with reference metrics present (and nonzero, since the source
would raise `ZeroDivisionError` at zero), `check_prediction_drift`
computes the relative changes `(new - ref)/ref` and flags drift exactly
when either strictly exceeds 1/5; metrics equal to the reference give
drift = false; the scenario with reference MSE 1 and new MSE 13/10
(change 3/10) is flagged while new MSE 11/10 (change 1/10) is not. -/
theorem check_prediction_drift_spec (model : ℚ → ℚ) (rows : List (ℚ × ℚ))
    (ref_mse ref_mae : ℚ) (h1 : ref_mse ≠ 0) (h2 : ref_mae ≠ 0) :
    ((check_prediction_drift model rows (some (ref_mse, ref_mae))).drift_detected = true ↔
      ((check_prediction_drift model rows (some (ref_mse, ref_mae))).current_mse - ref_mse)
          / ref_mse > 1/5 ∨
      ((check_prediction_drift model rows (some (ref_mse, ref_mae))).current_mae - ref_mae)
          / ref_mae > 1/5) ∧
    ((check_prediction_drift model rows (some (ref_mse, ref_mae))).current_mse = ref_mse →
      (check_prediction_drift model rows (some (ref_mse, ref_mae))).current_mae = ref_mae →
      (check_prediction_drift model rows (some (ref_mse, ref_mae))).drift_detected = false) ∧
    (check_prediction_drift model rows (some (ref_mse, ref_mae))).mse_change =
      some (((check_prediction_drift model rows (some (ref_mse, ref_mae))).current_mse - ref_mse)
              / ref_mse) ∧
    (check_prediction_drift (fun _ => 0) predDriftRowsFlagged (some (1, 1/2))).current_mse
      = 13/10 ∧
    (check_prediction_drift (fun _ => 0) predDriftRowsFlagged
        (some (1, 1/2))).drift_detected = true ∧
    (check_prediction_drift (fun _ => 0) predDriftRowsUnflagged (some (1, 1/2))).current_mse
      = 11/10 ∧
    (check_prediction_drift (fun _ => 0) predDriftRowsUnflagged
        (some (1, 1/2))).drift_detected = false := by
  refine ⟨by simp [check_prediction_drift], ?_, by simp [check_prediction_drift],
    by norm_num [check_prediction_drift, predDriftRowsFlagged, listMean],
    by norm_num [check_prediction_drift, predDriftRowsFlagged, listMean],
    by norm_num [check_prediction_drift, predDriftRowsUnflagged, listMean],
    by norm_num [check_prediction_drift, predDriftRowsUnflagged, listMean]⟩
  intro hm hM
  simp [check_prediction_drift] at hm hM ⊢
  simp [check_prediction_drift, hm, hM]

/-- Witness for C9: equal current and reference metrics (MSE 1, MAE 2/5
on the equal-metrics fixture) yield drift = false. -/
theorem check_prediction_drift_spec_witness :
    (check_prediction_drift (fun _ => 0) predDriftRowsEqual
      (some (1, 2/5))).drift_detected = false :=
  (check_prediction_drift_spec (fun _ => 0) predDriftRowsEqual 1 (2/5)
    one_ne_zero (by norm_num)).2.1
    (by norm_num [check_prediction_drift, predDriftRowsEqual, listMean])
    (by norm_num [check_prediction_drift, predDriftRowsEqual, listMean])

/-- C1: in an environment where drift is detected and the retraining
pipeline succeeds end to end, `RetrainPipeline.run` returns normally
and `trigger_retraining` reports the boolean `True`, yet
`check_for_drift` — comparing that boolean against the string `"True"`,
which is never equal in Python — sends the "Model Retraining Failed"
notification and never sends "Model Retraining Complete": the retrain
outcome is misreported on success. -/
theorem check_for_drift_misreports_success :
    RetrainPipeline.run defaultPaths okRunEnv = Except.ok okRunEnv.metrics ∧
    trigger_retraining true defaultPaths okRunEnv = true ∧
    pyEq (PyVal.bool true) (PyVal.str "True") = false ∧
    (RetrainingScheduler.check_for_drift true defaultPaths okRunEnv).notifications =
      ["Model Drift Detected", "Model Retraining Failed"] ∧
    "Model Retraining Complete" ∉
      (RetrainingScheduler.check_for_drift true defaultPaths okRunEnv).notifications ∧
    (RetrainingScheduler.check_for_drift true defaultPaths
        okRunEnv).retraining_success = some (PyVal.bool true) := by
  refine ⟨rfl, rfl, rfl, rfl, ?_, rfl⟩
  intro h
  simp [RetrainingScheduler.check_for_drift, trigger_retraining,
    RetrainPipeline.run, okRunEnv, pyEq] at h

/-- C2: when writing the metrics snapshot (or appending the ledger
row) raises after the model artifact was already written, `save_model`
catches the exception and returns `False` with the artifact write
already performed, and `RetrainPipeline.run` — which discards that
Boolean — still returns the metrics as a success: the persistence
failure is silently swallowed, never surfaced to `run`'s caller. -/
theorem run_swallows_persistence_failure :
    (RetrainPipeline.save_model defaultPaths
        { allOkSave with metrics_write_ok := false }).1 = false ∧
    (RetrainPipeline.save_model defaultPaths
        { allOkSave with metrics_write_ok := false }).2 =
      [FsOp.write defaultPaths.model_path] ∧
    RetrainPipeline.run defaultPaths
        { okRunEnv with save_env := { allOkSave with metrics_write_ok := false } } =
      Except.ok okRunEnv.metrics ∧
    (RetrainPipeline.save_model defaultPaths
        { allOkSave with history_append_ok := false }).1 = false ∧
    (RetrainPipeline.save_model defaultPaths
        { allOkSave with history_append_ok := false }).2 =
      [FsOp.write defaultPaths.model_path, FsOp.write defaultPaths.metrics_path] ∧
    RetrainPipeline.run defaultPaths
        { okRunEnv with save_env := { allOkSave with history_append_ok := false } } =
      Except.ok okRunEnv.metrics :=
  ⟨rfl, rfl, rfl, rfl, rfl, rfl⟩

/-- C3 counterexample: on a fully successful save at the default
paths, the operation trace of `save_model` contains no rename at all,
and its first operation is a direct write to the target artifact path —
refuting the claim that the artifact is first written to a temporary
location and then renamed over the target. -/
theorem save_model_no_rename_counterexample :
    ((RetrainPipeline.save_model defaultPaths allOkSave).2.all
      (fun op => !op.isRename)) = true ∧
    (RetrainPipeline.save_model defaultPaths allOkSave).2.head? =
      some (FsOp.write "ml/models/levy_impact_model.pkl") := by
  constructor
  · rfl
  · rfl

/-- C3 amended: for every path configuration and environment,
`save_model` performs no rename operation, and whenever the artifact
write happens at all it is a single direct write to `model_path` (the
first operation of the trace). -/
theorem save_model_direct_write_spec (p : Paths) (env : SaveEnv)
    (h : env.model_write_ok = true) :
    ((RetrainPipeline.save_model p env).2.all (fun op => !op.isRename)) = true ∧
    (RetrainPipeline.save_model p env).2.head? = some (FsOp.write p.model_path) := by
  rcases env with ⟨mw, cw, he, hc, ha⟩
  cases mw <;> cases cw <;> cases he <;> cases hc <;> cases ha <;>
    simp_all [RetrainPipeline.save_model, FsOp.isRename]

/-- Witness for C3 amended: at the default paths with every operation
succeeding, the trace starts with the direct artifact write. -/
theorem save_model_direct_write_spec_witness :
    ((RetrainPipeline.save_model defaultPaths allOkSave).2.all
      (fun op => !op.isRename)) = true ∧
    (RetrainPipeline.save_model defaultPaths allOkSave).2.head? =
      some (FsOp.write defaultPaths.model_path) :=
  save_model_direct_write_spec defaultPaths allOkSave rfl

/-- C4 counterexample: neither `run` nor `train_model` has a
`model_type` parameter, and `train_model` fits a random-forest model —
not a linear one — even in the default invocation the claim says
selects `"linear"`. -/
theorem train_model_no_model_type_counterexample :
    "model_type" ∉ run_param_names ∧
    "model_type" ∉ train_model_param_names ∧
    (RetrainPipeline.train_model [] []).spec.kind = ModelKind.randomForest ∧
    ModelKind.randomForest ≠ ModelKind.linearRegression := by
  refine ⟨by simp [run_param_names], by simp [train_model_param_names], rfl, by simp⟩

/-- C4 amended: `run` accepts no `model_type` parameter; `train_model`
takes only the training data and unconditionally fits a random-forest
ensemble with 100 estimators, max depth 10 and fixed random seed 42 —
there is no linear branch. -/
theorem train_model_random_forest_spec (X : List (List ℚ)) (y : List ℚ) :
    RetrainPipeline.train_model X y =
      { spec := { kind := ModelKind.randomForest, n_estimators := 100
                  max_depth := 10, random_state := 42 }
        fitX := X, fitY := y } ∧
    run_param_names = [] ∧
    train_model_param_names = ["X_train", "y_train"] :=
  ⟨rfl, rfl, rfl⟩

/-- C5: `make_json_serializable` leaves booleans — including a drift
flag nested in a dictionary and a boolean nested in a list — unchanged
as native booleans, because `bool` is a subclass of `int` in Python and
the `isinstance(obj, (int, float, str, type(None)))` branch returns
them before the bool-to-string branch can run; the string `"True"` is
never produced. -/
theorem make_json_serializable_keeps_bools :
    make_json_serializable (PyObj.dict [("drift_detected", PyObj.bool true)]) =
      PyObj.dict [("drift_detected", PyObj.bool true)] ∧
    make_json_serializable (PyObj.bool true) = PyObj.bool true ∧
    make_json_serializable (PyObj.list [PyObj.bool false]) =
      PyObj.list [PyObj.bool false] ∧
    PyObj.bool true ≠ PyObj.str "True" :=
  ⟨rfl, rfl, rfl, fun h => PyObj.noConfusion h⟩

/-- C6: for every path configuration and environment,
`monitor_and_alert` returns a result dictionary — its status is one of
"ok", "alert", "error", every internal exception having been converted
to an error result rather than propagated — and when the model file or
the data file does not exist, the result is the corresponding
`{'status': 'error', 'message': ...}` dictionary. -/
theorem monitor_and_alert_total_spec (p : Paths) (env : MonEnv) :
    ((DriftDetector.monitor_and_alert p env).status = "ok" ∨
      (DriftDetector.monitor_and_alert p env).status = "alert" ∨
      (DriftDetector.monitor_and_alert p env).status = "error") ∧
    (env.model_exists = false →
      DriftDetector.monitor_and_alert p env =
        { status := "error"
          message := "Model file not found: " ++ p.model_path
          drift_detected := Option.none }) ∧
    (env.model_exists = true → env.data_exists = false →
      DriftDetector.monitor_and_alert p env =
        { status := "error"
          message := "Data file not found: " ++ p.data_path
          drift_detected := Option.none }) := by
  rcases env with ⟨me, de, ml, dl, cr, dd, pd, cb⟩
  cases me <;> cases de <;> cases ml <;> cases dl <;> cases cr <;>
    cases dd <;> cases pd <;> cases cb <;>
      simp [DriftDetector.monitor_and_alert, DriftDetector.monitor_and_alert_body]

/-- Witness for C6: with both files missing at the default paths the
result is the model-file error dictionary. -/
theorem monitor_and_alert_total_spec_witness :
    DriftDetector.monitor_and_alert defaultPaths
        { model_exists := false, data_exists := false, model_load_ok := true
          data_load_ok := true, checks_raise := false, dist_drift := false
          pred_drift := false, callback_raises := false } =
      { status := "error"
        message := "Model file not found: " ++ defaultPaths.model_path
        drift_detected := Option.none } :=
  (monitor_and_alert_total_spec defaultPaths
    { model_exists := false, data_exists := false, model_load_ok := true
      data_load_ok := true, checks_raise := false, dist_drift := false
      pred_drift := false, callback_raises := false }).2.1 rfl

/-- C7 counterexample: on a four-row dataset the claim predicts a test
set of `⌊0.2·4⌋ = 0` trailing rows and a training set of the preceding
four rows, but `load_data`'s split puts the entire dataset in the test
set and nothing in the training set (`iloc[:-0]` is empty,
`iloc[-0:]` is everything). -/
theorem load_data_split_small_counterexample :
    load_data_split ([0, 1, 2, 3] : List ℕ) = ([], [0, 1, 2, 3]) ∧
    load_data_split ([0, 1, 2, 3] : List ℕ) ≠ ([0, 1, 2, 3], []) := by
  constructor
  · rfl
  · intro h
    simp [load_data_split, ilocToNeg, ilocFromNeg] at h

/-- C7 amended: for every dataset of at least five rows (so that
`test_size = ⌊0.2·n⌋ ≥ 1`), `load_data` splits chronologically: the
test set is exactly the trailing `⌊n/5⌋` rows in file order, the
training set is exactly the preceding rows, and their concatenation is
the original row sequence — nothing is shuffled.  For fewer than five
rows the whole dataset lands in the test set instead (see the
tiny-dataset theorem). -/
theorem load_data_split_chronological_spec (rows : List α)
    (h : 5 ≤ rows.length) :
    load_data_split rows =
      (rows.take (rows.length - rows.length / 5),
       rows.drop (rows.length - rows.length / 5)) ∧
    (load_data_split rows).1 ++ (load_data_split rows).2 = rows ∧
    (load_data_split rows).2.length = rows.length / 5 := by
  have hts : rows.length / 5 ≠ 0 := by
    have : 1 ≤ rows.length / 5 := (Nat.one_le_div_iff (by norm_num)).2 h
    omega
  have hle : rows.length / 5 ≤ rows.length := Nat.div_le_self _ _
  refine ⟨?_, ?_, ?_⟩
  · simp [load_data_split, ilocToNeg, ilocFromNeg, hts]
  · simp [load_data_split, ilocToNeg, ilocFromNeg, hts]
  · simp [load_data_split, ilocToNeg, ilocFromNeg, hts]
    omega

/-- Witness for C7 amended: a five-row dataset splits into the first
four rows for training and exactly the last row for test. -/
theorem load_data_split_chronological_spec_witness :
    load_data_split ([0, 1, 2, 3, 4] : List ℕ) = ([0, 1, 2, 3], [4]) := by
  have h := (load_data_split_chronological_spec ([0, 1, 2, 3, 4] : List ℕ)
    (by norm_num)).1
  simpa using h

/-- C10: for every dataset with fewer than five rows,
`test_size = int(0.2·n) = 0`, so the training slice `iloc[:-0]` is
empty and the test slice `iloc[-0:]` selects every row: `load_data`
returns an empty training set and the entire dataset as the test
set. -/
theorem load_data_split_tiny_dataset (rows : List α)
    (h : rows.length < 5) :
    load_data_split rows = ([], rows) := by
  have hts : rows.length / 5 = 0 := Nat.div_eq_of_lt h
  simp [load_data_split, ilocToNeg, ilocFromNeg, hts]

/-- Witness for C10: a three-row dataset yields an empty training set
and the whole dataset as test set. -/
theorem load_data_split_tiny_dataset_witness :
    load_data_split ([10, 20, 30] : List ℕ) = ([], [10, 20, 30]) :=
  load_data_split_tiny_dataset ([10, 20, 30] : List ℕ) (by norm_num)

end BCBSLevy
